import Mathlib

/-!
Shallow embedding of the Unison event-envelope layer
(src/specs/unison-spec/unison_spec/events.py) and proofs of the
spec claims about it.

Modelling conventions:
  * pydantic model construction is modelled as an explicit function from an
    argument record (each field an `Option`, `none` meaning the caller omitted
    the keyword) to `Except String Envelope`; a `Fresh` record supplies the
    values that the default factories (uuid4, utcnow) would generate.
  * The model config has `use_enum_values = True`, so after construction the
    `event_type` and `priority` attributes hold the plain value string of the
    enum member, not the member itself.  The envelope structure therefore
    stores `String` in those fields.
  * A pydantic `@validator` without `always=True` is NOT invoked when the
    field was not supplied by the caller (the declared default is used
    unvalidated).  This is visible below in the `correlation_id` and
    `goal_state` treatment.
  * In `validate_topic_format` the source looks up `values.get("event_type")`
    (by then the value string) in a dict keyed by enum members; because a
    `str`-mixin enum member is equal to and hashes like its value string, that
    lookup is equivalent to looking up the member itself, which is how
    `topic_mapping` is applied here.
  * Time is modelled as rational seconds; `datetime.utcnow()` at call time is
    an explicit `now` argument to `is_expired`.
  * Python dicts are insertion-ordered association lists; item assignment
    overwrites in place when the key exists and appends otherwise.
-/

namespace Unison

/-- The `EventType(str, Enum)` taxonomy of events.py, all 34 members. -/
inductive EventType where
  | INTENT_RECEIVED | INTENT_PROCESSED | INTENT_DECOMPOSED | INTENT_FAILED
  | CONTEXT_UPDATED | CONTEXT_QUERY | CONTEXT_RESPONSE | CONTEXT_MERGED
  | GOAL_CREATED | GOAL_UPDATED | GOAL_COMPLETED | GOAL_FAILED | GOAL_CANCELLED
  | EXPERIENCE_GENERATED | EXPERIENCE_ADAPTED | EXPERIENCE_INTERACTION | EXPERIENCE_RENDERED
  | VDI_SESSION_CREATED | VDI_SESSION_DESTROYED | VDI_DISPLAY_UPDATED | VDI_INTERACTION
  | SPEECH_PROCESSED | VISION_PROCESSED | IO_REQUEST | IO_RESPONSE
  | INFERENCE_REQUEST | INFERENCE_RESPONSE | INFERENCE_COMPLETED | INFERENCE_FAILED
  | SERVICE_HEALTH | SERVICE_METRICS | SERVICE_STARTED | SERVICE_STOPPED
  | SYSTEM_ALERT | SYSTEM_ERROR
  deriving DecidableEq

/-- The string value of each `EventType` member, as declared in the source. -/
def EventType.value : EventType → String
  | .INTENT_RECEIVED => "intent.received"
  | .INTENT_PROCESSED => "intent.processed"
  | .INTENT_DECOMPOSED => "intent.decomposed"
  | .INTENT_FAILED => "intent.failed"
  | .CONTEXT_UPDATED => "context.updated"
  | .CONTEXT_QUERY => "context.query"
  | .CONTEXT_RESPONSE => "context.response"
  | .CONTEXT_MERGED => "context.merged"
  | .GOAL_CREATED => "goal.created"
  | .GOAL_UPDATED => "goal.updated"
  | .GOAL_COMPLETED => "goal.completed"
  | .GOAL_FAILED => "goal.failed"
  | .GOAL_CANCELLED => "goal.cancelled"
  | .EXPERIENCE_GENERATED => "experience.generated"
  | .EXPERIENCE_ADAPTED => "experience.adapted"
  | .EXPERIENCE_INTERACTION => "experience.interaction"
  | .EXPERIENCE_RENDERED => "experience.rendered"
  | .VDI_SESSION_CREATED => "vdi.session.created"
  | .VDI_SESSION_DESTROYED => "vdi.session.destroyed"
  | .VDI_DISPLAY_UPDATED => "vdi.display.updated"
  | .VDI_INTERACTION => "vdi.interaction"
  | .SPEECH_PROCESSED => "speech.processed"
  | .VISION_PROCESSED => "vision.processed"
  | .IO_REQUEST => "io.request"
  | .IO_RESPONSE => "io.response"
  | .INFERENCE_REQUEST => "inference.request"
  | .INFERENCE_RESPONSE => "inference.response"
  | .INFERENCE_COMPLETED => "inference.completed"
  | .INFERENCE_FAILED => "inference.failed"
  | .SERVICE_HEALTH => "service.health"
  | .SERVICE_METRICS => "service.metrics"
  | .SERVICE_STARTED => "service.started"
  | .SERVICE_STOPPED => "service.stopped"
  | .SYSTEM_ALERT => "system.alert"
  | .SYSTEM_ERROR => "system.error"

/-- The `EventPriority(str, Enum)` taxonomy. -/
inductive EventPriority where
  | LOW | NORMAL | HIGH | CRITICAL | URGENT
  deriving DecidableEq

/-- The string value of each `EventPriority` member. -/
def EventPriority.value : EventPriority → String
  | .LOW => "low"
  | .NORMAL => "normal"
  | .HIGH => "high"
  | .CRITICAL => "critical"
  | .URGENT => "urgent"

/-- Pydantic coercion of a string into the `EventPriority` enum: by-value
lookup, `none` when the string is not the value of any member. -/
def EventPriority.fromValue (s : String) : Option EventPriority :=
  if s = "low" then some .LOW
  else if s = "normal" then some .NORMAL
  else if s = "high" then some .HIGH
  else if s = "critical" then some .CRITICAL
  else if s = "urgent" then some .URGENT
  else none

/-- A Python value as it can appear in the open `data`/`metadata` mappings
(type `Any` in the source). -/
inductive PyObj where
  | pyNone
  | pyBool (b : Bool)
  | pyInt (n : Int)
  | pyStr (s : String)
  | pyList (xs : List PyObj)
  | pyDict (xs : List (String × PyObj))

/-- A Python `dict[str, Any]`: insertion-ordered association list. -/
abbrev PyDict := List (String × PyObj)

/-- Python dict item assignment `d[k] = v`: overwrite in place when the key
is present, append otherwise. -/
def dictSet (d : PyDict) (k : String) (v : PyObj) : PyDict :=
  if d.any (fun p => p.1 = k) then
    d.map (fun p => if p.1 = k then (k, v) else p)
  else d ++ [(k, v)]

/-- Python dict lookup `d.get(k)`: the value at the first (unique) occurrence
of the key, `none` when absent. -/
def dictGet (d : PyDict) (k : String) : Option PyObj :=
  (d.find? (fun p => p.1 = k)).map (fun p => p.2)

/-- The static `topic_mapping` dict literal inside
`EventEnvelope.validate_topic_format`, entry for entry.  Note that it does
not cover the whole taxonomy: in particular `CONTEXT_MERGED`,
`GOAL_CANCELLED`, `EXPERIENCE_RENDERED`, `SERVICE_STARTED`,
`SERVICE_STOPPED` and `SYSTEM_ERROR` are absent. -/
def topic_mapping : EventType → Option String
  | .INTENT_RECEIVED => some "unison.intent.received"
  | .INTENT_PROCESSED => some "unison.intent.processed"
  | .INTENT_DECOMPOSED => some "unison.intent.decomposed"
  | .INTENT_FAILED => some "unison.intent.failed"
  | .CONTEXT_UPDATED => some "unison.context.updated"
  | .CONTEXT_QUERY => some "unison.context.query"
  | .CONTEXT_RESPONSE => some "unison.context.response"
  | .GOAL_CREATED => some "unison.goal.created"
  | .GOAL_UPDATED => some "unison.goal.updated"
  | .GOAL_COMPLETED => some "unison.goal.completed"
  | .GOAL_FAILED => some "unison.goal.failed"
  | .EXPERIENCE_GENERATED => some "unison.experience.generated"
  | .EXPERIENCE_ADAPTED => some "unison.experience.adapted"
  | .EXPERIENCE_INTERACTION => some "unison.experience.interaction"
  | .SERVICE_HEALTH => some "unison.service.health"
  | .SERVICE_METRICS => some "unison.service.metrics"
  | .SYSTEM_ALERT => some "unison.system.alert"
  | _ => none

/-- Body of the `correlation_id` validator: replace `None` by a fresh uuid,
keep any other supplied value.  (Whether this body runs at all on an omitted
field is decided at the construction function, matching pydantic.) -/
def generate_correlation_id_if_missing (fresh_uuid : String) : Option String → Option String
  | none => some fresh_uuid
  | some v => some v

/-- Body of the `topic` validator: when the event type has an entry in
`topic_mapping` and the incoming topic is exactly the sentinel `auto`,
return the mapped topic; otherwise return the incoming value unchanged. -/
def validate_topic_format (event_type : EventType) (v : String) : String :=
  match topic_mapping event_type with
  | some t => if v = "auto" then t else v
  | none => v

/-- The constructed `EventEnvelope` model: one field per pydantic field, in
declaration order.  `event_type` and `priority` hold the plain value string
because the model config sets `use_enum_values = True`. -/
structure EventEnvelope where
  event_id : String
  event_type : String
  event_version : String
  timestamp : Rat
  source_service : String
  source_instance : String
  correlation_id : Option String
  causation_id : Option String
  topic : String
  reply_to : Option String
  priority : String
  ttl : Option Int
  data : PyDict
  metadata : PyDict
  auth_token : Option String
  encrypted_fields : List String

/-- The keyword arguments of one construction call.  `none` in the outer
`Option` means the caller omitted the keyword entirely, so the declared
default applies (and field validators without `always=True` are skipped). -/
structure EnvelopeArgs where
  event_id : Option String := none
  event_type : Option EventType := none
  event_version : Option String := none
  timestamp : Option Rat := none
  source_service : Option String := none
  source_instance : Option String := none
  correlation_id : Option (Option String) := none
  causation_id : Option (Option String) := none
  topic : Option String := none
  reply_to : Option (Option String) := none
  priority : Option String := none
  ttl : Option (Option Int) := none
  data : Option PyDict := none
  metadata : Option PyDict := none
  auth_token : Option (Option String) := none
  encrypted_fields : Option (List String) := none

/-- The values produced by the default factories and by `uuid.uuid4()` inside
the `correlation_id` validator during one construction call. -/
structure Fresh where
  uuid_event_id : String
  uuid_correlation : String
  now : Rat

/-- Pydantic treatment of a required field: error when the keyword is
missing, the supplied value otherwise. -/
def ofRequired {α : Type} (fieldName : String) : Option α → Except String α
  | some v => Except.ok v
  | none => Except.error (fieldName ++ ": field required")

/-- Pydantic treatment of the `priority` field of the base envelope: the
default `EventPriority.NORMAL` when omitted, otherwise by-value enum coercion
that rejects strings outside the `EventPriority` value set; the stored
attribute is the value string (`use_enum_values`). -/
def validatePriority : Option String → Except String String
  | none => Except.ok "normal"
  | some p =>
    match EventPriority.fromValue p with
    | some pr => Except.ok pr.value
    | none => Except.error ("priority: value is not a valid enumeration member: " ++ p)

/-- The fully populated envelope, given the validated required fields.
Field for field:
  * `event_id` defaults to a fresh uuid4, `event_version` to `1.0`,
    `timestamp` to `utcnow`, `source_instance` to `default`;
  * `correlation_id`: the validator has no `always=True`, so an omitted field
    keeps the declared default `None` and the validator body never runs; only
    an explicitly supplied value (possibly `None`) goes through
    `generate_correlation_id_if_missing`;
  * `topic` goes through `validate_topic_format` with the already validated
    `event_type` in scope (it is declared earlier than `topic`);
  * remaining optional fields default as declared. -/
def buildEnvelope (fresh : Fresh) (args : EnvelopeArgs) (et : EventType)
    (src : String) (rawTopic : String) (prio : String) : EventEnvelope where
  event_id := args.event_id.getD fresh.uuid_event_id
  event_type := et.value
  event_version := args.event_version.getD "1.0"
  timestamp := args.timestamp.getD fresh.now
  source_service := src
  source_instance := args.source_instance.getD "default"
  correlation_id :=
    match args.correlation_id with
    | none => none
    | some v => generate_correlation_id_if_missing fresh.uuid_correlation v
  causation_id := args.causation_id.getD none
  topic := validate_topic_format et rawTopic
  reply_to := args.reply_to.getD none
  priority := prio
  ttl := args.ttl.getD none
  data := args.data.getD []
  metadata := args.metadata.getD []
  auth_token := args.auth_token.getD none
  encrypted_fields := args.encrypted_fields.getD []

/-- Construction of a base `EventEnvelope`: the three required fields must be
present, `priority` must coerce into its enum, then the envelope is built
with all defaulting and validators applied. -/
def mkEventEnvelope (fresh : Fresh) (args : EnvelopeArgs) : Except String EventEnvelope :=
  match args.event_type with
  | none => Except.error "event_type: field required"
  | some et =>
  match args.source_service with
  | none => Except.error "source_service: field required"
  | some src =>
  match args.topic with
  | none => Except.error "topic: field required"
  | some rawTopic =>
  match validatePriority args.priority with
  | Except.error msg => Except.error msg
  | Except.ok prio => Except.ok (buildEnvelope fresh args et src rawTopic prio)

/-- Method `add_metadata`: item assignment on the `metadata` dict; modelled
functionally as returning the updated envelope. -/
def EventEnvelope.add_metadata (e : EventEnvelope) (k : String) (v : PyObj) : EventEnvelope :=
  { e with metadata := dictSet e.metadata k v }

/-- Method `add_data`: item assignment on the `data` dict. -/
def EventEnvelope.add_data (e : EventEnvelope) (k : String) (v : PyObj) : EventEnvelope :=
  { e with data := dictSet e.data k v }

/-- Method `is_expired`: `False` when `ttl` is `None`, otherwise whether
strictly more than `ttl` seconds lie between `timestamp` and the current
time (`datetime.utcnow()` is the explicit `now` argument). -/
def EventEnvelope.is_expired (e : EventEnvelope) (now : Rat) : Bool :=
  match e.ttl with
  | none => false
  | some t => decide (now - e.timestamp > (t : Rat))

/-- Python attribute access `x.value` where `x` is a plain `str`: a `str`
has no `value` attribute, so this is always an `AttributeError`.  After
construction the `event_type` attribute is a plain string (consequence of
`use_enum_values = True`), so this is what `self.event_type.value` does. -/
def strAttrValue (s : String) : Except String String :=
  Except.error ("AttributeError: str object has no attribute value (on " ++ s ++ ")")

/-- Method `to_routing_key`: the f-string
`source_service` ++ `.` ++ `event_type.value`, where the attribute access on
the stored plain string raises. -/
def EventEnvelope.to_routing_key (e : EventEnvelope) : Except String String :=
  match strAttrValue e.event_type with
  | Except.error msg => Except.error msg
  | Except.ok v => Except.ok (e.source_service ++ "." ++ v)

/-- `IntentEvent`: the base envelope plus the intent fields, in declaration
order. -/
structure IntentEvent where
  base : EventEnvelope
  person_id : String
  expression : String
  intent_type : Option String
  confidence : Rat

/-!
Construction of an `IntentEvent`.  Its `init` first injects
`event_type = INTENT_RECEIVED` and `topic = "auto"` when those keywords are
absent, then the base envelope is validated (parent fields come first in the
model), then the intent fields: `person_id` and `expression` required,
`intent_type` optional, `confidence` defaulting to `0.0` with the declared
range constraints `ge=0.0`, `le=1.0` rejecting supplied values outside
`[0, 1]`.  The validation prefix up to and including `expression` is split
out so that theorems can reason about two calls differing only in the
`confidence` keyword.
-/

/-- The keyword-injection step of the `IntentEvent` constructor. -/
def intentArgs (args : EnvelopeArgs) : EnvelopeArgs :=
  { args with
    event_type := some (args.event_type.getD EventType.INTENT_RECEIVED)
    topic := some (args.topic.getD "auto") }

/-- Validation of the parent fields and of `person_id` and `expression`. -/
def mkIntentPrefix (fresh : Fresh) (args : EnvelopeArgs)
    (person_id : Option String) (expression : Option String) :
    Except String (EventEnvelope × String × String) :=
  match mkEventEnvelope fresh (intentArgs args) with
  | Except.error msg => Except.error msg
  | Except.ok base =>
  match ofRequired "person_id" person_id with
  | Except.error msg => Except.error msg
  | Except.ok pid =>
  match ofRequired "expression" expression with
  | Except.error msg => Except.error msg
  | Except.ok expr => Except.ok (base, pid, expr)

/-- Construction of an `IntentEvent`: the validation prefix, then the
optional `intent_type`, then `confidence` with its range check. -/
def mkIntentEvent (fresh : Fresh) (args : EnvelopeArgs)
    (person_id : Option String) (expression : Option String)
    (intent_type : Option (Option String)) (confidence : Option Rat) :
    Except String IntentEvent :=
  match mkIntentPrefix fresh args person_id expression with
  | Except.error msg => Except.error msg
  | Except.ok (base, pid, expr) =>
  match confidence with
  | none => Except.ok ⟨base, pid, expr, intent_type.getD none, 0⟩
  | some c =>
    if 0 ≤ c ∧ c ≤ 1 then Except.ok ⟨base, pid, expr, intent_type.getD none, c⟩
    else Except.error "confidence: value out of declared range"

/-- `ContextEvent`: base envelope plus the context fields. -/
structure ContextEvent where
  base : EventEnvelope
  person_id : String
  context_type : String
  context_data : PyDict
  merge_strategy : String

/-- Construction of a `ContextEvent`: `event_type` defaults to
`CONTEXT_UPDATED` and `topic` to the sentinel `auto` when absent;
`person_id` and `context_type` required, `context_data` defaults to the
empty dict, `merge_strategy` to `merge`. -/
def contextArgs (args : EnvelopeArgs) : EnvelopeArgs :=
  { args with
    event_type := some (args.event_type.getD EventType.CONTEXT_UPDATED)
    topic := some (args.topic.getD "auto") }

def mkContextEvent (fresh : Fresh) (args : EnvelopeArgs)
    (person_id : Option String) (context_type : Option String)
    (context_data : Option PyDict) (merge_strategy : Option String) :
    Except String ContextEvent :=
  match mkEventEnvelope fresh (contextArgs args) with
  | Except.error msg => Except.error msg
  | Except.ok base =>
  match ofRequired "person_id" person_id with
  | Except.error msg => Except.error msg
  | Except.ok pid =>
  match ofRequired "context_type" context_type with
  | Except.error msg => Except.error msg
  | Except.ok ct =>
    Except.ok ⟨base, pid, ct, context_data.getD [], merge_strategy.getD "merge"⟩

/-- `ExperienceEvent`: base envelope plus the experience fields. -/
structure ExperienceEvent where
  base : EventEnvelope
  experience_id : String
  person_id : String
  experience_type : String
  components : List PyDict
  adaptation_rules : List PyDict

/-- Construction of an `ExperienceEvent`: `event_type` defaults to
`EXPERIENCE_GENERATED` and `topic` to `auto` when absent; the three id and
type fields are required, the two lists default to empty. -/
def experienceArgs (args : EnvelopeArgs) : EnvelopeArgs :=
  { args with
    event_type := some (args.event_type.getD EventType.EXPERIENCE_GENERATED)
    topic := some (args.topic.getD "auto") }

def mkExperienceEvent (fresh : Fresh) (args : EnvelopeArgs)
    (experience_id : Option String) (person_id : Option String)
    (experience_type : Option String) (components : Option (List PyDict))
    (adaptation_rules : Option (List PyDict)) :
    Except String ExperienceEvent :=
  match mkEventEnvelope fresh (experienceArgs args) with
  | Except.error msg => Except.error msg
  | Except.ok base =>
  match ofRequired "experience_id" experience_id with
  | Except.error msg => Except.error msg
  | Except.ok eid =>
  match ofRequired "person_id" person_id with
  | Except.error msg => Except.error msg
  | Except.ok pid =>
  match ofRequired "experience_type" experience_type with
  | Except.error msg => Except.error msg
  | Except.ok etp =>
    Except.ok ⟨base, eid, pid, etp, components.getD [], adaptation_rules.getD []⟩

/-- The `allowed_states` list of the `goal_state` validator. -/
def allowed_states : List String := ["pending", "active", "completed", "failed", "cancelled"]

/-- Body of the `goal_state` validator: raise unless the value is in the
closed `allowed_states` set. -/
def validate_goal_state (v : String) : Except String String :=
  if v ∉ allowed_states then
    Except.error ("Goal state must be one of: " ++ String.intercalate ", " allowed_states)
  else Except.ok v

/-- `GoalEvent`: base envelope plus the goal fields.  The subclass redeclares
`priority` as a plain `str` field with default `normal`, which replaces the
`EventPriority`-typed field of the parent model; the single resulting
`priority` attribute is kept inside `base`. -/
structure GoalEvent where
  base : EventEnvelope
  goal_id : String
  person_id : String
  goal_type : String
  goal_state : String
  dependencies : List String

/-!
Construction of a `GoalEvent`: `event_type` defaults to `GOAL_CREATED`
and `topic` to `auto` when absent; `goal_id`, `person_id`, `goal_type`
required; `goal_state` defaults to `pending` (the validator, having no
`always=True`, is skipped for the default and only runs on supplied values);
`priority` is a plain free-form string defaulting to `normal`, replacing the
enum-validated parent field, so no enum coercion runs for it (the
`priority := none` below reflects that the parent enum field does not exist
on this model); `dependencies` defaults to the empty list.  The validation
prefix up to and including `goal_type` is split out so that theorems can
reason about two calls differing only in the later keywords.
-/

/-- The keyword-injection step of the `GoalEvent` constructor. -/
def goalArgs (args : EnvelopeArgs) : EnvelopeArgs :=
  { args with
    event_type := some (args.event_type.getD EventType.GOAL_CREATED)
    topic := some (args.topic.getD "auto")
    priority := none }

/-- Validation of the parent fields and of the three required goal fields. -/
def mkGoalPrefix (fresh : Fresh) (args : EnvelopeArgs)
    (goal_id : Option String) (person_id : Option String)
    (goal_type : Option String) :
    Except String (EventEnvelope × String × String × String) :=
  match mkEventEnvelope fresh (goalArgs args) with
  | Except.error msg => Except.error msg
  | Except.ok base0 =>
  match ofRequired "goal_id" goal_id with
  | Except.error msg => Except.error msg
  | Except.ok gid =>
  match ofRequired "person_id" person_id with
  | Except.error msg => Except.error msg
  | Except.ok pid =>
  match ofRequired "goal_type" goal_type with
  | Except.error msg => Except.error msg
  | Except.ok gtp => Except.ok (base0, gid, pid, gtp)

/-- Construction of a `GoalEvent`: the validation prefix, then `goal_state`
(validated only when supplied), then the free-form `priority` string and
`dependencies`. -/
def mkGoalEvent (fresh : Fresh) (args : EnvelopeArgs)
    (goal_id : Option String) (person_id : Option String)
    (goal_type : Option String) (goal_state : Option String)
    (priority : Option String) (dependencies : Option (List String)) :
    Except String GoalEvent :=
  match mkGoalPrefix fresh args goal_id person_id goal_type with
  | Except.error msg => Except.error msg
  | Except.ok (base0, gid, pid, gtp) =>
  match (match goal_state with
         | none => Except.ok "pending"
         | some v => validate_goal_state v) with
  | Except.error msg => Except.error msg
  | Except.ok gst =>
    Except.ok ⟨{ base0 with priority := priority.getD "normal" },
               gid, pid, gtp, gst, dependencies.getD []⟩

/-- Whether an `Except` result is a success. -/
def isOkE {α : Type} : Except String α → Bool
  | Except.ok _ => true
  | Except.error _ => false

/-- Fixture for the freshly generated values used by the concrete
evaluations below. -/
def fresh0 : Fresh := ⟨"uuid-event", "uuid-corr", 100⟩

/-- Every topic in the lookup table is a concrete `unison.`-prefixed topic,
in particular never the sentinel `auto`. -/
lemma topic_mapping_ne_auto {et : EventType} {t : String}
    (h : topic_mapping et = some t) : t ≠ "auto" := by
  intro hc
  subst hc
  cases et <;> simp [topic_mapping] at h

/-- A successful base-envelope construction means all required fields were
supplied, the priority coerced, and the result is `buildEnvelope` applied to
them. -/
lemma mkEventEnvelope_ok_elim {fresh : Fresh} {args : EnvelopeArgs} {e : EventEnvelope}
    (hok : mkEventEnvelope fresh args = Except.ok e) :
    ∃ et src rawTopic prio,
      args.event_type = some et ∧ args.source_service = some src ∧
      args.topic = some rawTopic ∧ validatePriority args.priority = Except.ok prio ∧
      e = buildEnvelope fresh args et src rawTopic prio := by
  unfold mkEventEnvelope at hok
  cases h1 : args.event_type with
  | none => rw [h1] at hok; exact absurd hok (by simp)
  | some et =>
    rw [h1] at hok
    cases h2 : args.source_service with
    | none => rw [h2] at hok; exact absurd hok (by simp)
    | some src =>
      rw [h2] at hok
      cases h3 : args.topic with
      | none => rw [h3] at hok; exact absurd hok (by simp)
      | some rawTopic =>
        rw [h3] at hok
        cases h4 : validatePriority args.priority with
        | error msg => rw [h4] at hok; exact absurd hok (by simp)
        | ok prio =>
          rw [h4] at hok
          refine ⟨et, src, rawTopic, prio, rfl, rfl, rfl, rfl, ?_⟩
          injection hok with h
          exact h.symm

/-- A successful base construction with known `event_type` and `topic`
keywords fixes the stored `event_type` string and the resolved topic. -/
lemma envelope_fields {fresh : Fresh} {args : EnvelopeArgs} {b : EventEnvelope}
    {et : EventType} {raw : String}
    (hok : mkEventEnvelope fresh args = Except.ok b)
    (het : args.event_type = some et) (htp : args.topic = some raw) :
    b.event_type = et.value ∧ b.topic = validate_topic_format et raw := by
  obtain ⟨et2, src, raw2, prio, h1, h2, h3, h4, he⟩ := mkEventEnvelope_ok_elim hok
  rw [het] at h1; injection h1 with h1
  rw [htp] at h3; injection h3 with h3
  subst he; subst h1; subst h3
  exact ⟨rfl, rfl⟩

/-- A successful `IntentEvent` prefix means the base envelope construction
succeeded on the injected arguments and the two required strings were
supplied. -/
lemma mkIntentPrefix_ok_elim {fresh : Fresh} {args : EnvelopeArgs}
    {pid expr : Option String} {base : EventEnvelope} {p x : String}
    (h : mkIntentPrefix fresh args pid expr = Except.ok (base, p, x)) :
    mkEventEnvelope fresh (intentArgs args) = Except.ok base ∧
      pid = some p ∧ expr = some x := by
  unfold mkIntentPrefix at h
  cases henv : mkEventEnvelope fresh (intentArgs args) with
  | error m => rw [henv] at h; exact absurd h (by simp)
  | ok b =>
    rw [henv] at h
    cases hp : pid with
    | none => rw [hp] at h; exact absurd h (by simp [ofRequired])
    | some pv =>
      rw [hp] at h
      cases hx : expr with
      | none => rw [hx] at h; exact absurd h (by simp [ofRequired])
      | some xv =>
        rw [hx] at h
        injection h with h
        injection h with hb h
        injection h with hpv hxv
        subst hb; subst hpv; subst hxv
        exact ⟨rfl, rfl, rfl⟩

/-- A successful `IntentEvent` construction means its prefix succeeded on the
fields stored in the result. -/
lemma mkIntentEvent_ok_elim {fresh : Fresh} {args : EnvelopeArgs}
    {pid expr : Option String} {it : Option (Option String)}
    {conf : Option Rat} {ev : IntentEvent}
    (hok : mkIntentEvent fresh args pid expr it conf = Except.ok ev) :
    mkIntentPrefix fresh args pid expr =
      Except.ok (ev.base, ev.person_id, ev.expression) := by
  unfold mkIntentEvent at hok
  cases hpre : mkIntentPrefix fresh args pid expr with
  | error m => rw [hpre] at hok; exact absurd hok (by simp)
  | ok tup =>
    obtain ⟨b, p, x⟩ := tup
    rw [hpre] at hok
    cases conf with
    | none => injection hok with h; rw [← h]
    | some c =>
      have hok2 :
          (if 0 ≤ c ∧ c ≤ 1 then
            Except.ok (⟨b, p, x, it.getD none, c⟩ : IntentEvent)
          else Except.error "confidence: value out of declared range") =
            Except.ok ev := hok
      by_cases hc : 0 ≤ c ∧ c ≤ 1
      · rw [if_pos hc] at hok2; injection hok2 with h; rw [← h]
      · rw [if_neg hc] at hok2; exact absurd hok2 (by simp)

/-- A successful `ContextEvent` construction means the base envelope
construction succeeded on the injected arguments. -/
lemma mkContextEvent_ok_elim {fresh : Fresh} {args : EnvelopeArgs}
    {pid ct : Option String} {cd : Option PyDict} {ms : Option String}
    {ev : ContextEvent}
    (hok : mkContextEvent fresh args pid ct cd ms = Except.ok ev) :
    mkEventEnvelope fresh (contextArgs args) = Except.ok ev.base := by
  unfold mkContextEvent at hok
  cases henv : mkEventEnvelope fresh (contextArgs args) with
  | error m => rw [henv] at hok; exact absurd hok (by simp)
  | ok b =>
    rw [henv] at hok
    cases hp : pid with
    | none => rw [hp] at hok; exact absurd hok (by simp [ofRequired])
    | some pv =>
      rw [hp] at hok
      cases hc : ct with
      | none => rw [hc] at hok; exact absurd hok (by simp [ofRequired])
      | some cv =>
        rw [hc] at hok
        injection hok with h
        rw [← h]

/-- A successful `ExperienceEvent` construction means the base envelope
construction succeeded on the injected arguments. -/
lemma mkExperienceEvent_ok_elim {fresh : Fresh} {args : EnvelopeArgs}
    {eid pid etp : Option String} {comps rules : Option (List PyDict)}
    {ev : ExperienceEvent}
    (hok : mkExperienceEvent fresh args eid pid etp comps rules = Except.ok ev) :
    mkEventEnvelope fresh (experienceArgs args) = Except.ok ev.base := by
  unfold mkExperienceEvent at hok
  cases henv : mkEventEnvelope fresh (experienceArgs args) with
  | error m => rw [henv] at hok; exact absurd hok (by simp)
  | ok b =>
    rw [henv] at hok
    cases h1 : eid with
    | none => rw [h1] at hok; exact absurd hok (by simp [ofRequired])
    | some v1 =>
      rw [h1] at hok
      cases h2 : pid with
      | none => rw [h2] at hok; exact absurd hok (by simp [ofRequired])
      | some v2 =>
        rw [h2] at hok
        cases h3 : etp with
        | none => rw [h3] at hok; exact absurd hok (by simp [ofRequired])
        | some v3 =>
          rw [h3] at hok
          injection hok with h
          rw [← h]

/-- A successful `GoalEvent` prefix means the base envelope construction
succeeded on the injected arguments and the three required strings were
supplied. -/
lemma mkGoalPrefix_ok_elim {fresh : Fresh} {args : EnvelopeArgs}
    {gid pid gt : Option String} {base : EventEnvelope} {g p t : String}
    (h : mkGoalPrefix fresh args gid pid gt = Except.ok (base, g, p, t)) :
    mkEventEnvelope fresh (goalArgs args) = Except.ok base := by
  unfold mkGoalPrefix at h
  cases henv : mkEventEnvelope fresh (goalArgs args) with
  | error m => rw [henv] at h; exact absurd h (by simp)
  | ok b =>
    rw [henv] at h
    cases h1 : gid with
    | none => rw [h1] at h; exact absurd h (by simp [ofRequired])
    | some v1 =>
      rw [h1] at h
      cases h2 : pid with
      | none => rw [h2] at h; exact absurd h (by simp [ofRequired])
      | some v2 =>
        rw [h2] at h
        cases h3 : gt with
        | none => rw [h3] at h; exact absurd h (by simp [ofRequired])
        | some v3 =>
          rw [h3] at h
          injection h with h
          injection h with hb h
          rw [hb]

/-- A successful `GoalEvent` construction exposes the prefix result and how
the final event is assembled from it. -/
lemma mkGoalEvent_ok_elim {fresh : Fresh} {args : EnvelopeArgs}
    {gid pid gt gs prio : Option String} {deps : Option (List String)}
    {ev : GoalEvent}
    (hok : mkGoalEvent fresh args gid pid gt gs prio deps = Except.ok ev) :
    ∃ base0, mkGoalPrefix fresh args gid pid gt =
        Except.ok (base0, ev.goal_id, ev.person_id, ev.goal_type) ∧
      ev.base = { base0 with priority := prio.getD "normal" } := by
  unfold mkGoalEvent at hok
  cases hpre : mkGoalPrefix fresh args gid pid gt with
  | error m => rw [hpre] at hok; exact absurd hok (by simp)
  | ok tup =>
    obtain ⟨b, g, p, t⟩ := tup
    rw [hpre] at hok
    cases gs with
    | none =>
      injection hok with h
      exact ⟨b, by rw [← h], by rw [← h]⟩
    | some v =>
      have hok2 :
          (match validate_goal_state v with
           | Except.error msg => Except.error msg
           | Except.ok gst =>
             Except.ok (⟨{ b with priority := prio.getD "normal" }, g, p, t, gst,
               deps.getD []⟩ : GoalEvent)) = Except.ok ev := hok
      cases hv : validate_goal_state v with
      | error m => rw [hv] at hok2; exact absurd hok2 (by simp)
      | ok st =>
        rw [hv] at hok2
        injection hok2 with h
        exact ⟨b, by rw [← h], by rw [← h]⟩

/-- Looking up a key right after setting it yields the assigned value. -/
lemma dictGet_dictSet (d : PyDict) (k : String) (v : PyObj) :
    dictGet (dictSet d k v) k = some v := by
  induction d with
  | nil => simp [dictGet, dictSet]
  | cons hd tl ih =>
    by_cases hk : hd.1 = k
    · simp [dictGet, dictSet, List.any_cons, hk, List.find?]
    · by_cases ha : tl.any (fun p => p.1 = k)
      · have hset : dictSet (hd :: tl) k v = hd :: dictSet tl k v := by
          simp [dictSet, List.any_cons, hk, ha, List.map_cons]
        rw [hset]
        have hfind : dictGet (hd :: dictSet tl k v) k = dictGet (dictSet tl k v) k := by
          simp [dictGet, List.find?, hk]
        rw [hfind]; exact ih
      · have hset : dictSet (hd :: tl) k v = hd :: dictSet tl k v := by
          simp [dictSet, List.any_cons, hk, ha]
        rw [hset]
        have hfind : dictGet (hd :: dictSet tl k v) k = dictGet (dictSet tl k v) k := by
          simp [dictGet, List.find?, hk]
        rw [hfind]; exact ih

/-!
Claim theorems.  Each claim of the specification gets one theorem below,
with concrete fixtures for the counterexamples and witnesses.
-/

def argsC1 : EnvelopeArgs :=
  { event_type := some EventType.CONTEXT_MERGED
    source_service := some "context-graph"
    topic := some "auto" }

/-- C1, counterexample.  The claim says that for every envelope constructed
with topic `auto` and an event type belonging to the intent, context, goal,
experience, service or system groups of the taxonomy, the constructed topic
is a concrete table topic and never the sentinel `auto`.  `CONTEXT_MERGED`
belongs to the context group, yet it has no entry in the lookup table, so
the constructed envelope keeps the literal sentinel `auto`. -/
theorem C1_counterexample :
    Except.map EventEnvelope.topic (mkEventEnvelope fresh0 argsC1) =
      Except.ok "auto" := rfl

/-- C1, amended.  For every envelope constructed with topic `auto` and an
event type that has an entry in the lookup table (the table omits
`CONTEXT_MERGED`, `GOAL_CANCELLED`, `EXPERIENCE_RENDERED`,
`SERVICE_STARTED`, `SERVICE_STOPPED` and `SYSTEM_ERROR` from those groups),
the constructed topic is the entry of the table and is never the literal
sentinel `auto`. -/
theorem C1_topic_table_resolves {fresh : Fresh} {args : EnvelopeArgs}
    {e : EventEnvelope} {et : EventType} {t : String}
    (htype : args.event_type = some et)
    (htopic : args.topic = some "auto")
    (hmap : topic_mapping et = some t)
    (hok : mkEventEnvelope fresh args = Except.ok e) :
    e.topic = t ∧ e.topic ≠ "auto" := by
  have hf := envelope_fields hok htype htopic
  have hval : validate_topic_format et "auto" = t := by
    unfold validate_topic_format
    rw [hmap]
    simp
  refine ⟨hf.2.trans hval, ?_⟩
  rw [hf.2, hval]
  exact topic_mapping_ne_auto hmap

def argsC1w : EnvelopeArgs :=
  { event_type := some EventType.GOAL_CREATED
    source_service := some "scheduler"
    topic := some "auto" }

def envC1w : EventEnvelope :=
  buildEnvelope fresh0 argsC1w EventType.GOAL_CREATED "scheduler" "auto" "normal"

/-- C1, witness: the amended theorem applied to a concrete construction with
`GOAL_CREATED` and topic `auto`. -/
theorem C1_witness : envC1w.topic = "unison.goal.created" ∧ envC1w.topic ≠ "auto" :=
  @C1_topic_table_resolves fresh0 argsC1w envC1w EventType.GOAL_CREATED
    "unison.goal.created" rfl rfl rfl rfl

/-- C2.  For every successfully constructed envelope: if the supplied topic
was the sentinel `auto` and the event type has an entry in the lookup table,
the stored topic equals the entry of the table; and if the supplied topic
was any string other than `auto`, the stored topic is that literal string
unchanged.  (All four specialized variants build their envelope through this
same construction function.) -/
theorem C2_topic_resolution {fresh : Fresh} {args : EnvelopeArgs}
    {e : EventEnvelope}
    (hok : mkEventEnvelope fresh args = Except.ok e) :
    (∀ et t, args.event_type = some et → args.topic = some "auto" →
      topic_mapping et = some t → e.topic = t) ∧
    (∀ et v, args.event_type = some et → args.topic = some v → v ≠ "auto" →
      e.topic = v) := by
  constructor
  · intro et t het htopic hmap
    have hf := envelope_fields hok het htopic
    rw [hf.2]
    unfold validate_topic_format
    rw [hmap]
    simp
  · intro et v het htopic hne
    have hf := envelope_fields hok het htopic
    rw [hf.2]
    unfold validate_topic_format
    cases hm : topic_mapping et with
    | none => rfl
    | some t => simp [hne]

def argsC2a : EnvelopeArgs :=
  { event_type := some EventType.GOAL_CREATED
    source_service := some "orchestrator"
    topic := some "auto" }

def envC2a : EventEnvelope :=
  buildEnvelope fresh0 argsC2a EventType.GOAL_CREATED "orchestrator" "auto" "normal"

def argsC2b : EnvelopeArgs :=
  { event_type := some EventType.GOAL_CREATED
    source_service := some "orchestrator"
    topic := some "custom.topic" }

def envC2b : EventEnvelope :=
  buildEnvelope fresh0 argsC2b EventType.GOAL_CREATED "orchestrator" "custom.topic"
    "normal"

/-- C2, witness: with `GOAL_CREATED` the sentinel resolves to
`unison.goal.created`, and a non-sentinel topic is kept verbatim. -/
theorem C2_witness :
    envC2a.topic = "unison.goal.created" ∧ envC2b.topic = "custom.topic" :=
  ⟨(@C2_topic_resolution fresh0 argsC2a envC2a rfl).1 EventType.GOAL_CREATED
      "unison.goal.created" rfl rfl rfl,
   (@C2_topic_resolution fresh0 argsC2b envC2b rfl).2 EventType.GOAL_CREATED
      "custom.topic" rfl rfl (by decide)⟩

def argsC3a : EnvelopeArgs :=
  { event_type := some EventType.INTENT_RECEIVED
    source_service := some "orchestrator"
    topic := some "unison.intent.received" }

def argsC3b : EnvelopeArgs :=
  { argsC3a with correlation_id := some none }

/-- C3, evaluation at the failing input.  The claim says that the
`correlation_id` of every constructed envelope is a non-null string, whether
the keyword was omitted or explicitly supplied as `None`.  The code only
achieves this for an explicitly supplied `None`: an omitted `correlation_id`
keeps the default `None`, because the validator lacks `always=True` and is
skipped for unsupplied fields. -/
theorem C3_correlation_id_evaluation :
    Except.map EventEnvelope.correlation_id (mkEventEnvelope fresh0 argsC3a) =
      Except.ok none ∧
    Except.map EventEnvelope.correlation_id (mkEventEnvelope fresh0 argsC3b) =
      Except.ok (some "uuid-corr") :=
  ⟨rfl, rfl⟩

def argsC4 : EnvelopeArgs :=
  { event_type := some EventType.INTENT_RECEIVED
    source_service := some "orchestrator"
    topic := some "unison.intent.received" }

/-- C4, evaluation at the failing input.  The claim says `to_routing_key`
returns the source service and the event-type value joined by a dot and does
not fail.  Because `use_enum_values = True` stores `event_type` as a plain
string, the attribute access `self.event_type.value` raises an
AttributeError instead of returning `orchestrator.intent.received`. -/
theorem C4_to_routing_key_evaluation :
    Except.map EventEnvelope.to_routing_key (mkEventEnvelope fresh0 argsC4) =
      Except.ok (Except.error
        "AttributeError: str object has no attribute value (on intent.received)") :=
  rfl

/-- C5.  `is_expired` is false whenever `ttl` is null, regardless of the
current time; and when `ttl` is an integer `t`, it is true when strictly
more than `t` seconds lie between `timestamp` and now, false when at most
`t` seconds do.  The function is a pure projection of the envelope: the
envelope itself is left untouched. -/
theorem C5_is_expired_spec (e : EventEnvelope) (now : Rat) :
    (e.ttl = none → e.is_expired now = false) ∧
    (∀ t : Int, e.ttl = some t →
      (now - e.timestamp > (t : Rat) → e.is_expired now = true) ∧
      (now - e.timestamp ≤ (t : Rat) → e.is_expired now = false)) := by
  constructor
  · intro h
    unfold EventEnvelope.is_expired
    rw [h]
  · intro t h
    unfold EventEnvelope.is_expired
    rw [h]
    exact ⟨fun hgt => decide_eq_true hgt,
           fun hle => decide_eq_false (not_lt.mpr hle)⟩

def argsC5 : EnvelopeArgs :=
  { event_type := some EventType.INTENT_RECEIVED
    source_service := some "orchestrator"
    topic := some "unison.intent.received"
    ttl := some (some 5) }

def envC5 : EventEnvelope :=
  buildEnvelope fresh0 argsC5 EventType.INTENT_RECEIVED "orchestrator"
    "unison.intent.received" "normal"

/-- C5, witness: an envelope constructed at time 100 with `ttl = 5` is not
expired at time 104 and is expired at time 106. -/
theorem C5_witness :
    mkEventEnvelope fresh0 argsC5 = Except.ok envC5 ∧
    envC5.is_expired 104 = false ∧ envC5.is_expired 106 = true := by
  refine ⟨rfl, ?_, ?_⟩
  · exact ((C5_is_expired_spec envC5 104).2 5 rfl).2
      (by rw [show envC5.timestamp = (100 : Rat) from rfl]; norm_num)
  · exact ((C5_is_expired_spec envC5 106).2 5 rfl).1
      (by rw [show envC5.timestamp = (100 : Rat) from rfl]; norm_num)

/-- C6, counterexample.  The claim says
`IntentEvent(person_id="u1", expression="hello")` constructs an event with a
non-null `correlation_id` (among other fields).  First, that exact call
fails outright: `source_service` is a required envelope field with no
default and no variant injection.  Second, even with a `source_service`
supplied the `correlation_id` stays `None`, because its validator is skipped
for omitted fields. -/
theorem C6_counterexample :
    isOkE (mkIntentEvent fresh0 {} (some "u1") (some "hello") none none) = false ∧
    Except.map (fun ev => ev.base.correlation_id)
      (mkIntentEvent fresh0 { source_service := some "svc" }
        (some "u1") (some "hello") none none) = Except.ok none :=
  ⟨rfl, rfl⟩

/-- C6, amended.  Constructing
`IntentEvent(person_id="u1", expression="hello", source_service="svc")` with
`event_type` and `topic` omitted yields `event_type = intent.received`,
`topic = unison.intent.received`, `correlation_id = None` (the validator is
skipped for the omitted field) and `confidence = 0.0`.  More generally, for
each of the four variants, omitting both `event_type` and `topic` injects
the canonical type of the variant and the sentinel `auto`, and the sentinel
then resolves through the same lookup table as the base envelope, giving the
canonical topic of the variant. -/
theorem C6_variant_defaults :
    (Except.map
      (fun ev => (ev.base.event_type, ev.base.topic, ev.base.correlation_id,
        ev.confidence))
      (mkIntentEvent fresh0 { source_service := some "svc" }
        (some "u1") (some "hello") none none) =
      Except.ok ("intent.received", "unison.intent.received", none, 0)) ∧
    (∀ fresh args pid expr it conf ev,
      args.event_type = none → args.topic = none →
      mkIntentEvent fresh args pid expr it conf = Except.ok ev →
      ev.base.event_type = "intent.received" ∧
        ev.base.topic = "unison.intent.received") ∧
    (∀ fresh args pid ct cd ms ev,
      args.event_type = none → args.topic = none →
      mkContextEvent fresh args pid ct cd ms = Except.ok ev →
      ev.base.event_type = "context.updated" ∧
        ev.base.topic = "unison.context.updated") ∧
    (∀ fresh args eid pid etp comps rules ev,
      args.event_type = none → args.topic = none →
      mkExperienceEvent fresh args eid pid etp comps rules = Except.ok ev →
      ev.base.event_type = "experience.generated" ∧
        ev.base.topic = "unison.experience.generated") ∧
    (∀ fresh args gid pid gt gs prio deps ev,
      args.event_type = none → args.topic = none →
      mkGoalEvent fresh args gid pid gt gs prio deps = Except.ok ev →
      ev.base.event_type = "goal.created" ∧
        ev.base.topic = "unison.goal.created") := by
  refine ⟨rfl, ?_, ?_, ?_, ?_⟩
  · intro fresh args pid expr it conf ev het htp hok
    have hbase := (mkIntentPrefix_ok_elim (mkIntentEvent_ok_elim hok)).1
    have het1 : (intentArgs args).event_type = some EventType.INTENT_RECEIVED := by
      simp [intentArgs, het]
    have htp1 : (intentArgs args).topic = some "auto" := by
      simp [intentArgs, htp]
    have hf := envelope_fields hbase het1 htp1
    exact ⟨hf.1, hf.2⟩
  · intro fresh args pid ct cd ms ev het htp hok
    have hbase := mkContextEvent_ok_elim hok
    have het1 : (contextArgs args).event_type = some EventType.CONTEXT_UPDATED := by
      simp [contextArgs, het]
    have htp1 : (contextArgs args).topic = some "auto" := by
      simp [contextArgs, htp]
    have hf := envelope_fields hbase het1 htp1
    exact ⟨hf.1, hf.2⟩
  · intro fresh args eid pid etp comps rules ev het htp hok
    have hbase := mkExperienceEvent_ok_elim hok
    have het1 : (experienceArgs args).event_type = some EventType.EXPERIENCE_GENERATED := by
      simp [experienceArgs, het]
    have htp1 : (experienceArgs args).topic = some "auto" := by
      simp [experienceArgs, htp]
    have hf := envelope_fields hbase het1 htp1
    exact ⟨hf.1, hf.2⟩
  · intro fresh args gid pid gt gs prio deps ev het htp hok
    obtain ⟨b0, hpre, hb⟩ := mkGoalEvent_ok_elim hok
    have hbase := mkGoalPrefix_ok_elim hpre
    have het1 : (goalArgs args).event_type = some EventType.GOAL_CREATED := by
      simp [goalArgs, het]
    have htp1 : (goalArgs args).topic = some "auto" := by
      simp [goalArgs, htp]
    have hf := envelope_fields hbase het1 htp1
    constructor
    · rw [hb]; exact hf.1
    · rw [hb]; exact hf.2

def intentC6w : IntentEvent :=
  ⟨buildEnvelope fresh0 (intentArgs { source_service := some "svc" })
      EventType.INTENT_RECEIVED "svc" "auto" "normal",
    "u1", "hello", none, 0⟩

/-- C6, witness: the general part of the amended claim applied to a concrete
`IntentEvent` construction. -/
theorem C6_witness :
    intentC6w.base.event_type = "intent.received" ∧
    intentC6w.base.topic = "unison.intent.received" :=
  C6_variant_defaults.2.1 fresh0 { source_service := some "svc" }
    (some "u1") (some "hello") none none intentC6w rfl rfl rfl

/-- C7.  Provided the remaining keywords make a valid `GoalEvent` (expressed
by the omitted-state call succeeding), supplying a `goal_state` inside the
closed set yields exactly that state, supplying one outside the set fails
with a validation error, and omitting it defaults to `pending`. -/
theorem C7_goal_state_validation {fresh : Fresh} {args : EnvelopeArgs}
    {gid pid gt prio : Option String} {deps : Option (List String)}
    (hvalid : isOkE (mkGoalEvent fresh args gid pid gt none prio deps) = true) :
    (∀ s, s ∈ allowed_states →
      Except.map GoalEvent.goal_state
        (mkGoalEvent fresh args gid pid gt (some s) prio deps) = Except.ok s) ∧
    (∀ s, s ∉ allowed_states →
      isOkE (mkGoalEvent fresh args gid pid gt (some s) prio deps) = false) ∧
    Except.map GoalEvent.goal_state
      (mkGoalEvent fresh args gid pid gt none prio deps) = Except.ok "pending" := by
  cases hpre : mkGoalPrefix fresh args gid pid gt with
  | error m =>
    exfalso
    unfold mkGoalEvent at hvalid
    rw [hpre] at hvalid
    simp [isOkE] at hvalid
  | ok tup =>
    obtain ⟨b, g, p0, t0⟩ := tup
    refine ⟨?_, ?_, ?_⟩
    · intro s hs
      have hval : validate_goal_state s = Except.ok s := by
        unfold validate_goal_state
        rw [if_neg (not_not_intro hs)]
      unfold mkGoalEvent
      rw [hpre]
      simp [hval, Except.map]
    · intro s hs
      have hval : validate_goal_state s =
          Except.error ("Goal state must be one of: " ++
            String.intercalate ", " allowed_states) := by
        unfold validate_goal_state
        rw [if_pos hs]
      unfold mkGoalEvent
      rw [hpre]
      simp [hval, isOkE]
    · unfold mkGoalEvent
      rw [hpre]
      simp [Except.map]

def argsC7 : EnvelopeArgs := { source_service := some "scheduler" }

/-- C7, witness: `completed` is accepted verbatim, `bogus` is rejected, and
the omitted state defaults to `pending`, on a concrete valid construction. -/
theorem C7_witness :
    Except.map GoalEvent.goal_state
      (mkGoalEvent fresh0 argsC7 (some "g1") (some "u1") (some "project")
        (some "completed") none none) = Except.ok "completed" ∧
    isOkE (mkGoalEvent fresh0 argsC7 (some "g1") (some "u1") (some "project")
      (some "bogus") none none) = false ∧
    Except.map GoalEvent.goal_state
      (mkGoalEvent fresh0 argsC7 (some "g1") (some "u1") (some "project")
        none none none) = Except.ok "pending" :=
  ⟨(@C7_goal_state_validation fresh0 argsC7 (some "g1") (some "u1")
      (some "project") none none rfl).1 "completed" (by decide),
   (@C7_goal_state_validation fresh0 argsC7 (some "g1") (some "u1")
      (some "project") none none rfl).2.1 "bogus" (by decide),
   (@C7_goal_state_validation fresh0 argsC7 (some "g1") (some "u1")
      (some "project") none none rfl).2.2⟩

/-- C8.  Provided the remaining keywords make a valid `IntentEvent`
(expressed by the omitted-confidence call succeeding), supplying a
`confidence` inside `[0, 1]` succeeds and stores exactly that value, and
supplying one outside the range fails with a validation error rather than
being clamped. -/
theorem C8_confidence_range {fresh : Fresh} {args : EnvelopeArgs}
    {pid expr : Option String} {it : Option (Option String)}
    (hvalid : isOkE (mkIntentEvent fresh args pid expr it none) = true)
    (c : Rat) :
    (0 ≤ c ∧ c ≤ 1 →
      Except.map IntentEvent.confidence
        (mkIntentEvent fresh args pid expr it (some c)) = Except.ok c) ∧
    (¬(0 ≤ c ∧ c ≤ 1) →
      isOkE (mkIntentEvent fresh args pid expr it (some c)) = false) := by
  cases hpre : mkIntentPrefix fresh args pid expr with
  | error m =>
    exfalso
    unfold mkIntentEvent at hvalid
    rw [hpre] at hvalid
    simp [isOkE] at hvalid
  | ok tup =>
    obtain ⟨b, p, x⟩ := tup
    constructor
    · intro hc
      unfold mkIntentEvent
      rw [hpre]
      show Except.map IntentEvent.confidence
        (if 0 ≤ c ∧ c ≤ 1 then
          Except.ok (⟨b, p, x, it.getD none, c⟩ : IntentEvent)
        else Except.error "confidence: value out of declared range") = Except.ok c
      rw [if_pos hc]
      rfl
    · intro hc
      unfold mkIntentEvent
      rw [hpre]
      show isOkE
        (if 0 ≤ c ∧ c ≤ 1 then
          Except.ok (⟨b, p, x, it.getD none, c⟩ : IntentEvent)
        else Except.error "confidence: value out of declared range") = false
      rw [if_neg hc]
      rfl

def argsC8 : EnvelopeArgs := { source_service := some "orchestrator" }

/-- C8, witness: confidence one half is stored exactly, confidence three
halves is rejected, on a concrete valid construction. -/
theorem C8_witness :
    Except.map IntentEvent.confidence
      (mkIntentEvent fresh0 argsC8 (some "u1") (some "hi") none
        (some (1 / 2))) = Except.ok (1 / 2) ∧
    isOkE (mkIntentEvent fresh0 argsC8 (some "u1") (some "hi") none
      (some (3 / 2))) = false :=
  ⟨(@C8_confidence_range fresh0 argsC8 (some "u1") (some "hi") none rfl
      (1 / 2)).1 (by norm_num),
   (@C8_confidence_range fresh0 argsC8 (some "u1") (some "hi") none rfl
      (3 / 2)).2 (by norm_num)⟩

/-- C9.  `add_metadata` stores the pair in the `metadata` dict (so the key
looks up to exactly the assigned value, which is what serialization emits)
and leaves every other field of the envelope unchanged; `add_data` does the
same on the `data` dict. -/
theorem C9_add_metadata_add_data (e : EventEnvelope) (k : String) (v : PyObj) :
    (dictGet (e.add_metadata k v).metadata k = some v ∧
     (e.add_metadata k v).event_id = e.event_id ∧
     (e.add_metadata k v).event_type = e.event_type ∧
     (e.add_metadata k v).event_version = e.event_version ∧
     (e.add_metadata k v).timestamp = e.timestamp ∧
     (e.add_metadata k v).source_service = e.source_service ∧
     (e.add_metadata k v).source_instance = e.source_instance ∧
     (e.add_metadata k v).correlation_id = e.correlation_id ∧
     (e.add_metadata k v).causation_id = e.causation_id ∧
     (e.add_metadata k v).topic = e.topic ∧
     (e.add_metadata k v).reply_to = e.reply_to ∧
     (e.add_metadata k v).priority = e.priority ∧
     (e.add_metadata k v).ttl = e.ttl ∧
     (e.add_metadata k v).data = e.data ∧
     (e.add_metadata k v).auth_token = e.auth_token ∧
     (e.add_metadata k v).encrypted_fields = e.encrypted_fields) ∧
    (dictGet (e.add_data k v).data k = some v ∧
     (e.add_data k v).event_id = e.event_id ∧
     (e.add_data k v).event_type = e.event_type ∧
     (e.add_data k v).event_version = e.event_version ∧
     (e.add_data k v).timestamp = e.timestamp ∧
     (e.add_data k v).source_service = e.source_service ∧
     (e.add_data k v).source_instance = e.source_instance ∧
     (e.add_data k v).correlation_id = e.correlation_id ∧
     (e.add_data k v).causation_id = e.causation_id ∧
     (e.add_data k v).topic = e.topic ∧
     (e.add_data k v).reply_to = e.reply_to ∧
     (e.add_data k v).priority = e.priority ∧
     (e.add_data k v).ttl = e.ttl ∧
     (e.add_data k v).metadata = e.metadata ∧
     (e.add_data k v).auth_token = e.auth_token ∧
     (e.add_data k v).encrypted_fields = e.encrypted_fields) :=
  ⟨⟨dictGet_dictSet e.metadata k v, rfl, rfl, rfl, rfl, rfl, rfl, rfl, rfl,
     rfl, rfl, rfl, rfl, rfl, rfl, rfl⟩,
   ⟨dictGet_dictSet e.data k v, rfl, rfl, rfl, rfl, rfl, rfl, rfl, rfl,
     rfl, rfl, rfl, rfl, rfl, rfl, rfl⟩⟩

/-- C10.  The `priority` field that `GoalEvent` declares replaces the
enum-validated field of the parent model: any string whatsoever is accepted
and stored verbatim (provided the rest of the construction is valid),
whereas the base envelope rejects at construction every `priority` string
that is not an `EventPriority` value.  The closed-set check on `goal_state`
is the contrasting behavior proved with claim C7. -/
theorem C10_goal_priority_unvalidated {fresh : Fresh} {args : EnvelopeArgs}
    {gid pid gt gs : Option String} {deps : Option (List String)}
    (hvalid : isOkE (mkGoalEvent fresh args gid pid gt gs none deps) = true) :
    (∀ p : String,
      Except.map (fun g => g.base.priority)
        (mkGoalEvent fresh args gid pid gt gs (some p) deps) = Except.ok p) ∧
    (∀ p : String, EventPriority.fromValue p = none →
      ∀ (fresh2 : Fresh) (args2 : EnvelopeArgs), args2.priority = some p →
        isOkE (mkEventEnvelope fresh2 args2) = false) := by
  constructor
  · cases hpre : mkGoalPrefix fresh args gid pid gt with
    | error m =>
      exfalso
      unfold mkGoalEvent at hvalid
      rw [hpre] at hvalid
      simp [isOkE] at hvalid
    | ok tup =>
      obtain ⟨b, g, p0, t0⟩ := tup
      intro p
      unfold mkGoalEvent
      rw [hpre]
      cases gs with
      | none => simp [Except.map]
      | some w =>
        cases hv : validate_goal_state w with
        | error m =>
          exfalso
          unfold mkGoalEvent at hvalid
          rw [hpre] at hvalid
          simp [isOkE, hv] at hvalid
        | ok st => simp [hv, Except.map]
  · intro p hp fresh2 args2 hprio
    unfold mkEventEnvelope
    cases h1 : args2.event_type with
    | none => simp [isOkE]
    | some et =>
      cases h2 : args2.source_service with
      | none => simp [isOkE]
      | some src =>
        cases h3 : args2.topic with
        | none => simp [isOkE]
        | some raw =>
          rw [hprio]
          unfold validatePriority
          simp [isOkE, hp]

def argsC10 : EnvelopeArgs := { source_service := some "scheduler" }

def argsC10b : EnvelopeArgs :=
  { event_type := some EventType.GOAL_CREATED
    source_service := some "scheduler"
    topic := some "unison.goal.created"
    priority := some "bogus" }

/-- C10, witness: a `GoalEvent` accepts the priority string `bogus` and
stores it verbatim, while the base envelope construction rejects the same
string. -/
theorem C10_witness :
    Except.map (fun g => g.base.priority)
      (mkGoalEvent fresh0 argsC10 (some "g1") (some "u1") (some "project")
        none (some "bogus") none) = Except.ok "bogus" ∧
    isOkE (mkEventEnvelope fresh0 argsC10b) = false :=
  ⟨(@C10_goal_priority_unvalidated fresh0 argsC10 (some "g1") (some "u1")
      (some "project") none none rfl).1 "bogus",
   (@C10_goal_priority_unvalidated fresh0 argsC10 (some "g1") (some "u1")
      (some "project") none none rfl).2 "bogus" rfl fresh0 argsC10b rfl⟩

end Unison
